import Mathlib

/-!
Verification development for the CV-validation pipeline (tRPC router
`cvRouter`: `submitCV` / `getSubmissions` / `getSubmission`, helpers
`extractPDFText` and `validateCVWithAI`).

Strings are modelled as `List Char` (`Str`).  JavaScript's `JSON.parse`
is modelled as a parameter `parse : Str → Option Json`, where `none`
stands for a thrown `SyntaxError` (whose V8 message always contains the
substring "JSON").  The generative-AI round trip is modelled as a
parameter `callModel : Str → ModelOutcome` mapping the built prompt to
either the raw reply text or a thrown error value.
-/

namespace CVV

abbrev Str := List Char

/-- Whitespace test, modelling the JavaScript regex class `\s` and
`String.prototype.trim` (space, tab, newline, carriage return, ...). -/
def jsWs (c : Char) : Bool := c.isWhitespace

/-- Model of `String.prototype.trimStart`. -/
def trimLeftS (l : Str) : Str := l.dropWhile jsWs

/-- Model of `String.prototype.trimEnd`. -/
def trimRightS (l : Str) : Str := (l.reverse.dropWhile jsWs).reverse

/-- Model of `String.prototype.trim`. -/
def trimS (l : Str) : Str := trimRightS (trimLeftS l)

/-- Decides whether the first list is a prefix of the second
(model of `String.prototype.startsWith`). -/
def hasPref : Str → Str → Bool
  | [], _ => true
  | _ :: _, [] => false
  | p :: ps, s :: ss => p == s && hasPref ps ss

/-- Decides whether `needle` occurs as a contiguous substring of `hay`
(model of `String.prototype.includes`). -/
def containsSub (hay needle : Str) : Bool :=
  match hay with
  | [] => needle.isEmpty
  | _ :: hs => hasPref needle hay || containsSub hs needle

/-- Model of the replacement `.replace(/\s*```$/, '')` used on the AI
reply: when the text ends in a triple-backtick fence, drop the fence and
the run of whitespace immediately before it; otherwise leave the text
unchanged. -/
def stripTrailingFence (l : Str) : Str :=
  if hasPref "```".data.reverse l.reverse then
    trimRightS (l.take (l.length - 3))
  else l

/-- The fence-removal step of the response clean-up: strip a leading
```` ```json ```` marker (`.replace(/^```json\s*/i, '')`) or a bare
```` ``` ```` marker (`.replace(/^```\s*/, '')`) and then the trailing
fence, guarded by the `startsWith` tests of the source. -/
def fenceStrip (t : Str) : Str :=
  if hasPref "```json".data t then
    stripTrailingFence (trimLeftS (t.drop 7))
  else if hasPref "```".data t then
    stripTrailingFence (trimLeftS (t.drop 3))
  else t

/-- Model of the response clean-up in `validateCVWithAI` (trim, strip
code fences, trim again; source lines 174-185). -/
def cleanAIResponse (text : Str) : Str :=
  trimS (fenceStrip (trimS text))

/-- JSON values, as produced by `JSON.parse` and consumed by
`JSON.stringify`.  Objects are ordered key/value lists, matching the
insertion order of the JavaScript object literals in the source. -/
inductive Json where
  | null : Json
  | bool : Bool → Json
  | num : Int → Json
  | str : Str → Json
  | arr : List Json → Json
  | obj : List (Str × Json) → Json

/-- Key lookup in a JSON object: `some v` when `j` is an object with the
key, `none` otherwise (models JavaScript property access). -/
def jget (j : Json) (k : Str) : Option Json :=
  match j with
  | Json.obj kvs => kvs.lookup k
  | _ => none

/-- Key list of a JSON object (`Object.keys`), `none` for non-objects. -/
def jkeys (j : Json) : Option (List Str) :=
  match j with
  | Json.obj kvs => some (kvs.map Prod.fst)
  | _ => none

/-- The five declared CV fields, in declaration order. -/
def fieldNames : List Str :=
  ["fullName".data, "email".data, "phone".data, "skills".data, "experience".data]

/-- An object mapping every declared field to `null` (the `matches`
value of the degraded results). -/
def nullMatches : Json :=
  Json.obj (fieldNames.map (fun k => (k, Json.null)))

/-- An object mapping every declared field to one fixed explanation
string (the `details` value of the degraded results). -/
def uniformDetails (s : Str) : Json :=
  Json.obj (fieldNames.map (fun k => (k, Json.str s)))

/-- A thrown JavaScript error value as inspected by the `catch` block of
`validateCVWithAI`: whether it is a `SyntaxError`, its `message`, and
its optional numeric `status`. -/
structure JsError where
  isSynErr : Bool
  message : Str
  status : Option Nat
deriving DecidableEq

/-- JavaScript `error?.status >= 400` (false when `status` is absent). -/
def statusGE400 : Option Nat → Bool
  | some n => 400 ≤ n
  | none => false

/-- The `SyntaxError` thrown by `JSON.parse` on malformed input; V8's
message for it always contains the substring "JSON". -/
def synErrJSON : JsError :=
  ⟨true, "Unexpected token in JSON at position 0".data, none⟩

/-- The `catch` block of `validateCVWithAI` (source lines 192-290):
classify the thrown error and build the corresponding degraded
`ValidationResult` object, preserving the exact strings and key order of
the source. -/
def handleError (e : JsError) : Json :=
  if e.isSynErr && containsSub e.message "JSON".data then
    Json.obj
      [("isValid".data, Json.bool true),
       ("error".data, Json.str "AI response parsing error - validation skipped".data),
       ("message".data, Json.str "CV submitted successfully. AI validation temporarily unavailable due to response format issues.".data),
       ("matches".data, nullMatches),
       ("details".data, uniformDetails "AI validation unavailable - response parsing error".data),
       ("overallSummary".data, Json.str "CV submission accepted. AI validation temporarily unavailable due to response parsing issues. The AI returned an invalid format.".data)]
  else if containsSub e.message "not found".data || containsSub e.message "not supported".data then
    Json.obj
      [("isValid".data, Json.bool true),
       ("error".data, Json.str "Google AI model not available - validation skipped".data),
       ("message".data, Json.str "CV submitted successfully. AI validation temporarily unavailable due to model availability.".data),
       ("matches".data, nullMatches),
       ("details".data, uniformDetails "AI validation unavailable - model not found".data),
       ("overallSummary".data, Json.str "CV submission accepted. AI validation temporarily unavailable due to Google AI model not being found or supported. Please check your Google AI API key and available models.".data)]
  else if e.status == some 429 || containsSub e.message "quota".data then
    Json.obj
      [("isValid".data, Json.bool true),
       ("error".data, Json.str "Google AI quota exceeded - validation skipped".data),
       ("message".data, Json.str "CV submitted successfully. AI validation temporarily unavailable due to quota limits.".data),
       ("matches".data, nullMatches),
       ("details".data, uniformDetails "AI validation unavailable - quota exceeded".data),
       ("overallSummary".data, Json.str "CV submission accepted. AI validation temporarily unavailable due to Google AI quota limits. Please check your Google AI API key and quota settings.".data)]
  else if statusGE400 e.status then
    Json.obj
      [("isValid".data, Json.bool true),
       ("error".data, Json.str ("Google AI API error (".data ++ (Nat.repr (e.status.getD 0)).data ++ ") - validation skipped".data)),
       ("message".data, Json.str "CV submitted successfully. AI validation temporarily unavailable.".data),
       ("matches".data, Json.obj []),
       ("details".data, Json.obj []),
       ("overallSummary".data, Json.str "CV submission accepted. AI validation temporarily unavailable due to API issues.".data)]
  else
    Json.obj
      [("isValid".data, Json.bool true),
       ("error".data, Json.str "AI validation temporarily unavailable".data),
       ("message".data, Json.str "CV submitted successfully. AI validation will be retried later.".data),
       ("details".data, Json.obj []),
       ("overallSummary".data, Json.str "CV submission accepted. AI validation temporarily unavailable.".data)]

/-- The declared-fields input of `submitCV`, as validated by
`cvSubmissionSchema`. -/
structure FormInput where
  fullName : Str
  email : Str
  phone : Str
  skills : List Str
  experience : Str
  pdfPath : Str
deriving DecidableEq

/-- Model of JavaScript `Array.prototype.join(', ')`. -/
def joinComma (xs : List Str) : Str := List.intercalate ", ".data xs

/-- Literal prompt text before the full-name value (source lines 128-131). -/
def promptP1 : Str :=
  "\n      Please compare the following form data with the CV content and validate if they match.\n      \n      Form Data:\n      - Full Name: ".data

/-- Literal prompt text before the email value. -/
def promptP2 : Str := "\n      - Email: ".data

/-- Literal prompt text before the phone value. -/
def promptP3 : Str := "\n      - Phone: ".data

/-- Literal prompt text before the joined skills line. -/
def promptP4 : Str := "\n      - Skills: ".data

/-- Literal prompt text before the experience value. -/
def promptP5 : Str := "\n      - Experience: ".data

/-- Literal prompt text before the embedded CV content. -/
def promptP6 : Str := "\n      \n      CV Content:\n      ".data

/-- Literal prompt text after the CV content: the mandated JSON reply
shape (source lines 139-159). -/
def promptP7 : Str :=
  "\n      \n      Please analyze and return a JSON response with the following structure:\n      \x7b\n        \"isValid\": boolean,\n        \"matches\": \x7b\n          \"fullName\": boolean,\n          \"email\": boolean,\n          \"phone\": boolean,\n          \"skills\": boolean,\n          \"experience\": boolean\n        \x7d,\n        \"details\": \x7b\n          \"fullName\": \"explanation\",\n          \"email\": \"explanation\",\n          \"phone\": \"explanation\",\n          \"skills\": \"explanation\",\n          \"experience\": \"explanation\"\n        \x7d,\n        \"overallSummary\": \"summary of the validation\"\n      \x7d\n    ".data

/-- The template literal `prompt` of `validateCVWithAI` (source lines
127-159): the declared fields and the extracted text interpolated into
the fixed comparison request. -/
def buildPrompt (fd : FormInput) (pdfContent : Str) : Str :=
  promptP1 ++ fd.fullName ++ promptP2 ++ fd.email ++ promptP3 ++ fd.phone ++
    promptP4 ++ joinComma fd.skills ++ promptP5 ++ fd.experience ++
    promptP6 ++ pdfContent ++ promptP7

/-- System-instruction text prepended to the prompt (source line 162). -/
def sysPre : Str :=
  "You are a CV validation assistant. Compare form data with CV content and return structured JSON responses.\n\n".data

/-- Closing instruction appended to the prompt (source line 166). -/
def sysSuf : Str :=
  "\n\nPlease respond with ONLY a valid JSON object, no additional text.".data

/-- The template literal `fullPrompt` sent to the model (source lines
162-166). -/
def buildFullPrompt (fd : FormInput) (pdfContent : Str) : Str :=
  sysPre ++ buildPrompt fd pdfContent ++ sysSuf

/-- Outcome of the `model.generateContent` round trip: the raw reply
text, or a thrown error value. -/
inductive ModelOutcome where
  | ok : Str → ModelOutcome
  | fail : JsError → ModelOutcome

/-- The `try` block of `validateCVWithAI`: build the prompt, call the
model, clean the reply, `JSON.parse` it.  An `error` value is a thrown
exception reaching the `catch` block. -/
def tryValidate (callModel : Str → ModelOutcome) (parse : Str → Option Json)
    (fd : FormInput) (pdfContent : Str) : Except JsError Json :=
  match callModel (buildFullPrompt fd pdfContent) with
  | .fail e => .error e
  | .ok raw =>
    match parse (cleanAIResponse raw) with
    | some j => .ok j
    | none => .error synErrJSON

/-- `validateCVWithAI` (source lines 125-291): the `try` block with its
`catch` block, which maps every thrown error to a degraded result.  A
`.error` value of the `Except` would mean an exception propagating past
the function's boundary. -/
def validateCVWithAI (callModel : Str → ModelOutcome) (parse : Str → Option Json)
    (formData : FormInput) (pdfContent : Str) : Except JsError Json :=
  match tryValidate callModel parse formData pdfContent with
  | .ok j => .ok j
  | .error e => .ok (handleError e)

/-- Convenience projection: the returned value of `validateCVWithAI`
(total, since the function never returns `.error`). -/
def runValidate (callModel : Str → ModelOutcome) (parse : Str → Option Json)
    (formData : FormInput) (pdfContent : Str) : Json :=
  match validateCVWithAI callModel parse formData pdfContent with
  | .ok j => j
  | .error _ => Json.null

/-- `extractPDFText` (source lines 20-30): returns the placeholder text
recording only the byte length of the buffer. -/
def extractPDFText (pdfBuffer : List Nat) : Str :=
  "[PDF Content Placeholder - File size: ".data ++ (Nat.repr pdfBuffer.length).data ++
    " bytes]\n\nThis is a placeholder for PDF text extraction. The actual PDF content will be processed once the PDF parsing library is properly configured.".data

/-- Model of `z.string().email()` from the zod schema: the pass/fail bit
of zod's email check (one `@`, non-empty local part, dotted non-empty
domain not starting or ending with a dot).  Downstream reasoning only
uses which inputs fail, never the exact accepted language. -/
def emailValid (s : Str) : Bool :=
  match s.splitOn '@' with
  | [loc, dom] =>
    !loc.isEmpty && !dom.isEmpty && containsSub dom ".".data &&
      !hasPref ".".data dom && !(dom.getLast? == some '.')
  | _ => false

/-- `cvSubmissionSchema` (source lines 10-17): the zod object guarding
`submitCV`'s input.  `pdfPath` is an unconstrained string. -/
def schemaCheck (i : FormInput) : Bool :=
  !i.fullName.isEmpty && emailValid i.email && !i.phone.isEmpty &&
    !i.skills.isEmpty && !i.experience.isEmpty

/-- Observable side effects of one `submitCV` run, in execution order. -/
inductive Effect where
  | fsAccess : Str → Effect
  | fsRead : Str → Effect
  | dbInsert : FormInput → Str → Effect
  | dbUpdate : Nat → Json → Json → Effect

/-- Whether an effect is a store write (INSERT or UPDATE). -/
def isDbWrite : Effect → Bool
  | .dbInsert _ _ => true
  | .dbUpdate _ _ _ => true
  | _ => false

/-- The environment a `submitCV` run executes against: whether the file
at `pdfPath` exists, its bytes, the id the INSERT returns, the model
adapter and the JSON parser. -/
structure Env where
  fileExists : Bool
  fileBytes : List Nat
  insertId : Nat
  callModel : Str → ModelOutcome
  parse : Str → Option Json

/-- The success payload of `submitCV`. -/
structure SubmitOk where
  success : Bool
  submissionId : Nat
  validationResult : Json

/-- `submitCV` (source lines 33-105): schema validation by tRPC, file
existence check, file read, placeholder extraction, INSERT, AI
validation, UPDATE with the validation outcome.  Returns the caller's
view together with the trace of performed effects. -/
def submitCV (input : FormInput) (env : Env) : Except Str SubmitOk × List Effect :=
  if schemaCheck input = false then
    (.error "Invalid input".data, [])
  else if env.fileExists = false then
    (.error ("Failed to process CV submission: PDF file not found at path: ".data ++ input.pdfPath),
     [.fsAccess input.pdfPath])
  else
    let pdfText := extractPDFText env.fileBytes
    let vr := runValidate env.callModel env.parse input pdfText
    let validated := (jget vr "isValid".data).getD Json.null
    (.ok ⟨true, env.insertId, vr⟩,
     [.fsAccess input.pdfPath, .fsRead input.pdfPath,
      .dbInsert input pdfText,
      .dbUpdate env.insertId validated vr])

/-- The test of the first `catch` branch: a `SyntaxError` whose message
mentions JSON, i.e. a `JSON.parse` failure. -/
def isParseErr (e : JsError) : Bool :=
  e.isSynErr && containsSub e.message "JSON".data

/-- The four adapter-failure kinds of the spec's taxonomy (section 4.3). -/
inductive FailureKind where
  | rateLimited
  | modelUnavailable
  | providerError
  | transportError
deriving DecidableEq

/-- Classify a non-parse error the way the `catch` branch ladder of
`validateCVWithAI` does, into the spec's four adapter-failure kinds. -/
def classifyFailure (e : JsError) : FailureKind :=
  if containsSub e.message "not found".data || containsSub e.message "not supported".data then
    FailureKind.modelUnavailable
  else if e.status == some 429 || containsSub e.message "quota".data then
    FailureKind.rateLimited
  else if statusGE400 e.status then
    FailureKind.providerError
  else
    FailureKind.transportError

/-- The `error` code string each failure kind produces. -/
def errCode : FailureKind → Option Nat → Str
  | FailureKind.rateLimited, _ => "Google AI quota exceeded - validation skipped".data
  | FailureKind.modelUnavailable, _ => "Google AI model not available - validation skipped".data
  | FailureKind.providerError, st =>
    "Google AI API error (".data ++ (Nat.repr (st.getD 0)).data ++ ") - validation skipped".data
  | FailureKind.transportError, _ => "AI validation temporarily unavailable".data

/-- A typical HTTP 429 quota error thrown by the provider client. -/
def err429 : JsError := ⟨false, "You exceeded your current quota".data, some 429⟩

/-- The declared fields of the spec's worked scenario. -/
def fdSample : FormInput :=
  ⟨"Jane Doe".data, "jane@x.com".data, "+15551234567".data,
    ["Go".data, "SQL".data], "5 years backend.".data, "/tmp/cv.pdf".data⟩

/-- A declared-fields record violating the schema (empty full name). -/
def fdBad : FormInput :=
  ⟨[], "jane@x.com".data, "1".data, ["Go".data], "ok".data, "/tmp/cv.pdf".data⟩

/-- A stub adapter whose call always throws a transport-style error. -/
def stubModel : Str → ModelOutcome :=
  fun _ => ModelOutcome.fail ⟨false, "socket hang up".data, none⟩

/-- A stub adapter whose call returns a non-JSON reply. -/
def okOops : Str → ModelOutcome := fun _ => ModelOutcome.ok "oops".data

/-- A stub `JSON.parse` that fails on every input. -/
def noParse : Str → Option Json := fun _ => none

/-- An environment whose file at `pdfPath` does not exist. -/
def envNoFile : Env := ⟨false, [], 1, stubModel, noParse⟩

/-- An environment whose provider call fails with HTTP 429. -/
def env429 : Env := ⟨true, [0, 1, 2], 7, fun _ => ModelOutcome.fail err429, noParse⟩

/-- A raw model reply that is already bare JSON: `{"matches": {}}`. -/
def rawMatches : Str := "\x7b\"matches\": \x7b\x7d\x7d".data

/-- The value of `JSON.parse` on `rawMatches` (and only on it), as a
pointwise model of the JavaScript parser. -/
def parseMatches : Str → Option Json :=
  fun s => if s = rawMatches then some (Json.obj [("matches".data, Json.obj [])]) else none

/-! Helper lemmas about the string model. -/

/-- A list is a prefix of itself followed by anything. -/
theorem hasPref_self_append (p m : Str) : hasPref p (p ++ m) = true := by
  induction p with
  | nil => rfl
  | cons c cs ih => simp [hasPref, ih]

/-- A prefix test for a longer pattern entails the test for its first part. -/
theorem hasPref_of_append (p q s : Str) (h : hasPref (p ++ q) s = true) :
    hasPref p s = true := by
  induction p generalizing s with
  | nil => rfl
  | cons c cs ih =>
    cases s with
    | nil => simp [hasPref] at h
    | cons d ds =>
      simp only [List.cons_append, hasPref, Bool.and_eq_true] at h ⊢
      exact ⟨h.1, ih ds h.2⟩

/-- The head surviving `dropWhile` fails the predicate. -/
theorem head_of_dropWhile {p : Char → Bool} {l xs : Str} {x : Char}
    (h : l.dropWhile p = x :: xs) : p x = false := by
  induction l with
  | nil => simp [List.dropWhile] at h
  | cons y ys ih =>
    by_cases hy : p y
    · exact ih (by simpa [List.dropWhile_cons, hy] using h)
    · simp only [List.dropWhile_cons, hy, if_false] at h
      cases h
      simpa using hy

/-- `dropWhile` is idempotent. -/
theorem dropWhile_self {p : Char → Bool} (l : Str) :
    (l.dropWhile p).dropWhile p = l.dropWhile p := by
  cases hd : l.dropWhile p with
  | nil => rfl
  | cons x xs => simp [List.dropWhile_cons, head_of_dropWhile hd]

/-- Left-trimming a list that is already left-trimmed and non-empty
extends over an appended tail. -/
theorem trimLeftS_append_left (a b : Str) (h : trimLeftS a = a) (ha : a ≠ []) :
    trimLeftS (a ++ b) = a ++ b := by
  cases a with
  | nil => exact absurd rfl ha
  | cons x xs =>
    have hx : jsWs x = false := head_of_dropWhile h
    simp [trimLeftS, List.dropWhile_cons, hx]

/-- Right-trimming ignores an already right-trimmed non-empty tail. -/
theorem trimRightS_append_right (a b : Str) (h : trimRightS b = b) (hb : b ≠ []) :
    trimRightS (a ++ b) = a ++ b := by
  have hrev : (b.reverse).dropWhile jsWs = b.reverse := by
    have := congrArg List.reverse h
    simpa [trimRightS] using this
  cases hbr : b.reverse with
  | nil => exact absurd (by simpa using congrArg List.reverse hbr) hb
  | cons y ys =>
    have hy : jsWs y = false := head_of_dropWhile (by rw [hbr] at hrev; exact hrev)
    unfold trimRightS
    rw [List.reverse_append, hbr, List.cons_append,
      List.dropWhile_cons, if_neg (by simp [hy]), ← List.cons_append, ← hbr,
      List.reverse_append, List.reverse_reverse, List.reverse_reverse]

/-- Right-trimming drops a final whitespace character. -/
theorem trimRightS_append_ws (l : Str) (c : Char) (hc : jsWs c = true) :
    trimRightS (l ++ [c]) = trimRightS l := by
  unfold trimRightS
  rw [List.reverse_append]
  simp [List.dropWhile_cons, hc]

/-- Right-trimming keeps a non-whitespace head. -/
theorem trimRightS_cons_of (x : Char) (xs : Str) (h : jsWs x = false) :
    trimRightS (x :: xs) = x :: trimRightS xs := by
  unfold trimRightS
  rw [show (x :: xs).reverse = xs.reverse ++ [x] from by simp,
    List.dropWhile_append]
  by_cases he : (xs.reverse.dropWhile jsWs).isEmpty
  · simp [he, List.dropWhile_cons, h, List.isEmpty_iff.mp he]
  · simp [he]

/-- Left-trimmed lists stay left-trimmed under right-trimming. -/
theorem trimLeftS_trimRightS (m : Str) (h : trimLeftS m = m) :
    trimLeftS (trimRightS m) = trimRightS m := by
  cases m with
  | nil => rfl
  | cons x xs =>
    have hx : jsWs x = false := head_of_dropWhile h
    rw [trimRightS_cons_of x xs hx]
    simp [trimLeftS, List.dropWhile_cons, hx]

/-- Right-trimming is idempotent. -/
theorem trimRightS_self (l : Str) : trimRightS (trimRightS l) = trimRightS l := by
  unfold trimRightS
  rw [List.reverse_reverse, dropWhile_self]

/-- The full trim is idempotent. -/
theorem trimS_self (l : Str) : trimS (trimS l) = trimS l := by
  unfold trimS
  rw [trimLeftS_trimRightS (trimLeftS l) (dropWhile_self l),
    trimRightS_self]

/-- Lists differing on their first `n` elements differ. -/
theorem ne_of_take_ne (n : Nat) (x y : Str) (h : x.take n ≠ y.take n) : x ≠ y :=
  fun he => h (he ▸ rfl)

/-- Taking 21 characters from the provider-error code isolates its fixed
head. -/
theorem take21_api (rest : Str) :
    ("Google AI API error (".data ++ rest).take 21 = "Google AI API error (".data := by
  rw [List.take_append_eq_append_take]
  have h1 : ("Google AI API error (".data).take 21 = "Google AI API error (".data := rfl
  have h2 : 21 - ("Google AI API error (".data).length = 0 := rfl
  rw [h1, h2, List.take_zero, List.append_nil]

/-- The provider-error code always begins with its fixed 21-character
head, whatever the status. -/
theorem apiCode_take (st : Option Nat) :
    (errCode FailureKind.providerError st).take 21 = "Google AI API error (".data := by
  show (("Google AI API error (".data ++ (Nat.repr (st.getD 0)).data) ++
      ") - validation skipped".data).take 21 = "Google AI API error (".data
  rw [List.append_assoc]
  exact take21_api _

/-! Lemmas on the fence-stripping step. -/

/-- After the leading fence marker is gone, the remaining
newline-wrapped payload cleans to the trimmed payload. -/
theorem clean_core (R : Str) :
    trimS (stripTrailingFence (trimLeftS ("\n".data ++ (R ++ "\n```".data)))) =
      trimS R := by
  have h1 : trimLeftS ("\n".data ++ (R ++ "\n```".data)) =
      trimLeftS (R ++ "\n```".data) := by
    show trimLeftS ('\n' :: (R ++ "\n```".data)) = _
    simp [trimLeftS, List.dropWhile_cons, show jsWs '\n' = true from rfl]
  rw [h1]
  cases hL : trimLeftS R with
  | nil =>
    have h2 : trimLeftS (R ++ "\n```".data) = "```".data := by
      unfold trimLeftS at hL ⊢
      rw [List.dropWhile_append, if_pos (by simp [hL])]
      rfl
    rw [h2, show stripTrailingFence "```".data = [] from by decide,
      show trimS ([] : Str) = [] from rfl]
    unfold trimS
    rw [hL]
    rfl
  | cons x xs =>
    have hx : jsWs x = false := head_of_dropWhile hL
    have h2 : trimLeftS (R ++ "\n```".data) = (x :: xs) ++ "\n```".data := by
      unfold trimLeftS at hL ⊢
      rw [List.dropWhile_append, if_neg (by simp [hL]), hL]
    have h3 : hasPref "```".data.reverse ((x :: xs) ++ "\n```".data).reverse = true := by
      rw [List.reverse_append,
        show ("\n```".data).reverse = "```".data.reverse ++ "\n".data from by decide,
        List.append_assoc]
      exact hasPref_self_append _ _
    have h4 : stripTrailingFence ((x :: xs) ++ "\n```".data) = trimRightS (x :: xs) := by
      unfold stripTrailingFence
      rw [if_pos h3]
      have hlen : ((x :: xs) ++ "\n```".data).length - 3 = (x :: xs).length + 1 := by
        simp [List.length_append]
      rw [hlen, List.take_append_eq_append_take,
        List.take_of_length_le (by omega),
        show (x :: xs).length + 1 - (x :: xs).length = 1 from by omega,
        show ("\n```".data).take 1 = "\n".data from rfl]
      exact trimRightS_append_ws (x :: xs) '\n' rfl
    rw [h2, h4, ← hL]
    show trimS (trimRightS (trimLeftS R)) = trimS R
    rw [show trimRightS (trimLeftS R) = trimS R from rfl, trimS_self]

/-- Branch selection: a reply starting with the `json`-tagged fence
takes the first branch of `fenceStrip`. -/
theorem fenceStrip_json (t : Str) (h : hasPref "```json".data t = true) :
    fenceStrip t = stripTrailingFence (trimLeftS (t.drop 7)) := by
  unfold fenceStrip
  rw [if_pos h]

/-- Branch selection: a reply starting with a bare fence (but not the
`json`-tagged one) takes the second branch of `fenceStrip`. -/
theorem fenceStrip_bare (t : Str) (h7 : hasPref "```json".data t = false)
    (h3 : hasPref "```".data t = true) :
    fenceStrip t = stripTrailingFence (trimLeftS (t.drop 3)) := by
  unfold fenceStrip
  rw [if_neg (by simp [h7]), if_pos h3]

/-- When the trimmed reply does not itself begin with a fence, the
clean-up is just the trim. -/
theorem clean_no_fence (R : Str) (h : hasPref "```".data (trimS R) = false) :
    cleanAIResponse R = trimS R := by
  have h7 : hasPref "```json".data (trimS R) = false := by
    cases hc : hasPref "```json".data (trimS R) with
    | false => rfl
    | true =>
      have := hasPref_of_append "```".data "json".data (trimS R)
        (by rw [show "```".data ++ "json".data = "```json".data from rfl]; exact hc)
      rw [this] at h
      exact absurd h (by simp)
  unfold cleanAIResponse fenceStrip
  rw [if_neg (by simp [h7]), if_neg (by simp [h]), trimS_self]

/-- Cleaning a reply wrapped in a ```` ```json ```` fence yields the
trimmed payload. -/
theorem clean_wrapped_json (R : Str) :
    cleanAIResponse ("```json\n".data ++ (R ++ "\n```".data)) = trimS R := by
  have htrimL : trimLeftS ("```json\n".data ++ (R ++ "\n```".data)) =
      "```json\n".data ++ (R ++ "\n```".data) :=
    trimLeftS_append_left _ _ (by decide) (by decide)
  have htrimR : trimRightS ("```json\n".data ++ (R ++ "\n```".data)) =
      "```json\n".data ++ (R ++ "\n```".data) := by
    rw [show "```json\n".data ++ (R ++ "\n```".data) =
        ("```json\n".data ++ R) ++ "\n```".data from by simp [List.append_assoc]]
    exact trimRightS_append_right _ _ (by decide) (by decide)
  have htrim : trimS ("```json\n".data ++ (R ++ "\n```".data)) =
      "```json\n".data ++ (R ++ "\n```".data) := by
    unfold trimS
    rw [htrimL, htrimR]
  have hpref : hasPref "```json".data ("```json\n".data ++ (R ++ "\n```".data)) = true := by
    rw [show ("```json\n".data ++ (R ++ "\n```".data) : Str) =
        "```json".data ++ ("\n".data ++ (R ++ "\n```".data)) from rfl]
    exact hasPref_self_append _ _
  have hdrop : ("```json\n".data ++ (R ++ "\n```".data)).drop 7 =
      "\n".data ++ (R ++ "\n```".data) := by
    rw [show ("```json\n".data ++ (R ++ "\n```".data) : Str) =
        "```json".data ++ ("\n".data ++ (R ++ "\n```".data)) from rfl]
    exact List.drop_left "```json".data ("\n".data ++ (R ++ "\n```".data))
  unfold cleanAIResponse
  rw [htrim, fenceStrip_json _ hpref, hdrop]
  exact clean_core R

/-- Cleaning a reply wrapped in a bare ```` ``` ```` fence yields the
trimmed payload. -/
theorem clean_wrapped_bare (R : Str) :
    cleanAIResponse ("```\n".data ++ (R ++ "\n```".data)) = trimS R := by
  have htrimL : trimLeftS ("```\n".data ++ (R ++ "\n```".data)) =
      "```\n".data ++ (R ++ "\n```".data) :=
    trimLeftS_append_left _ _ (by decide) (by decide)
  have htrimR : trimRightS ("```\n".data ++ (R ++ "\n```".data)) =
      "```\n".data ++ (R ++ "\n```".data) := by
    rw [show "```\n".data ++ (R ++ "\n```".data) =
        ("```\n".data ++ R) ++ "\n```".data from by simp [List.append_assoc]]
    exact trimRightS_append_right _ _ (by decide) (by decide)
  have htrim : trimS ("```\n".data ++ (R ++ "\n```".data)) =
      "```\n".data ++ (R ++ "\n```".data) := by
    unfold trimS
    rw [htrimL, htrimR]
  have hnotjson : hasPref "```json".data ("```\n".data ++ (R ++ "\n```".data)) = false := rfl
  have hpref : hasPref "```".data ("```\n".data ++ (R ++ "\n```".data)) = true := by
    rw [show ("```\n".data ++ (R ++ "\n```".data) : Str) =
        "```".data ++ ("\n".data ++ (R ++ "\n```".data)) from rfl]
    exact hasPref_self_append _ _
  have hdrop : ("```\n".data ++ (R ++ "\n```".data)).drop 3 =
      "\n".data ++ (R ++ "\n```".data) := by
    rw [show ("```\n".data ++ (R ++ "\n```".data) : Str) =
        "```".data ++ ("\n".data ++ (R ++ "\n```".data)) from rfl]
    exact List.drop_left "```".data ("\n".data ++ (R ++ "\n```".data))
  unfold cleanAIResponse
  rw [htrim, fenceStrip_bare _ hnotjson hpref, hdrop]
  exact clean_core R

/-! Lemmas on the degraded results of `validateCVWithAI`. -/

/-- Every degraded result carries `isValid: true`. -/
theorem handleError_isValid (e : JsError) :
    jget (handleError e) "isValid".data = some (Json.bool true) := by
  unfold handleError
  cases h0 : (e.isSynErr && containsSub e.message "JSON".data) <;>
    cases hA : (containsSub e.message "not found".data || containsSub e.message "not supported".data) <;>
    cases hB : (e.status == some 429 || containsSub e.message "quota".data) <;>
    cases hC : statusGE400 e.status <;> rfl

/-- The `error` code of a degraded result for a non-parse failure is the
code of its failure kind. -/
theorem handleError_error_eq (e : JsError) (he : isParseErr e = false) :
    jget (handleError e) "error".data =
      some (Json.str (errCode (classifyFailure e) e.status)) := by
  have h0 : (e.isSynErr && containsSub e.message "JSON".data) = false := he
  unfold handleError classifyFailure
  rw [h0]
  cases hA : (containsSub e.message "not found".data || containsSub e.message "not supported".data) <;>
    cases hB : (e.status == some 429 || containsSub e.message "quota".data) <;>
    cases hC : statusGE400 e.status <;> rfl

/-- Distinct failure kinds carry distinct `error` codes, whatever the
HTTP statuses involved. -/
theorem errCode_ne (k1 k2 : FailureKind) (s1 s2 : Option Nat) (hk : k1 ≠ k2) :
    errCode k1 s1 ≠ errCode k2 s2 := by
  cases k1 <;> cases k2 <;>
    first
      | exact absurd rfl hk
      | (simp only [errCode]; decide)
      | (apply ne_of_take_ne 21; rw [apiCode_take]; simp only [errCode]; decide)

/-- Reduction of `runValidate` when the model call throws. -/
theorem runValidate_fail (cm : Str → ModelOutcome) (parse : Str → Option Json)
    (fd : FormInput) (pdf : Str) (e : JsError)
    (hcm : cm (buildFullPrompt fd pdf) = ModelOutcome.fail e) :
    runValidate cm parse fd pdf = handleError e := by
  unfold runValidate validateCVWithAI tryValidate
  rw [hcm]

/-- Reduction of `runValidate` when the cleaned reply fails to parse. -/
theorem runValidate_parse_none (cm : Str → ModelOutcome) (parse : Str → Option Json)
    (fd : FormInput) (pdf : Str) (raw : Str)
    (hcm : cm (buildFullPrompt fd pdf) = ModelOutcome.ok raw)
    (hp : parse (cleanAIResponse raw) = none) :
    runValidate cm parse fd pdf = handleError synErrJSON := by
  unfold runValidate validateCVWithAI tryValidate
  rw [hcm]
  simp [hp]

/-- Every degraded result carries a non-null `error` code. -/
theorem handleError_error_isSome (e : JsError) :
    (jget (handleError e) "error".data).isSome = true := by
  unfold handleError
  cases h0 : (e.isSynErr && containsSub e.message "JSON".data) <;>
    cases hA : (containsSub e.message "not found".data || containsSub e.message "not supported".data) <;>
    cases hB : (e.status == some 429 || containsSub e.message "quota".data) <;>
    cases hC : statusGE400 e.status <;> rfl

/-- In the parse-failure, rate-limited and model-unavailable fallbacks,
`matches` and `details` carry exactly the five declared field keys. -/
theorem handleError_five_keys (e : JsError)
    (h : isParseErr e = true ∨ classifyFailure e = FailureKind.rateLimited ∨
      classifyFailure e = FailureKind.modelUnavailable) :
    jkeys ((jget (handleError e) "matches".data).getD Json.null) = some fieldNames ∧
    jkeys ((jget (handleError e) "details".data).getD Json.null) = some fieldNames := by
  cases h0 : (e.isSynErr && containsSub e.message "JSON".data) <;>
    cases hA : (containsSub e.message "not found".data || containsSub e.message "not supported".data) <;>
    cases hB : (e.status == some 429 || containsSub e.message "quota".data) <;>
    cases hC : statusGE400 e.status <;>
    first
      | (simp only [handleError, h0, hA, hB, hC]; exact ⟨rfl, rfl⟩)
      | (exact absurd h (by simp [isParseErr, classifyFailure, h0, hA, hB, hC]))

/-! Claim theorems. -/

/-- Claim C9: the text extractor's output depends only on the byte
length of the input PDF buffer: any two buffers of equal length yield
the same placeholder string, so the comparison baseline sent to the
model carries no information from the actual document bytes. -/
theorem c9_extract_length_only (b1 b2 : List Nat) (h : b1.length = b2.length) :
    extractPDFText b1 = extractPDFText b2 := by
  unfold extractPDFText
  rw [h]

/-- Witness for C9 at two different one-byte buffers. -/
theorem c9_extract_length_only_witness :
    ([0] : List Nat).length = ([255] : List Nat).length ∧
      extractPDFText [0] = extractPDFText [255] :=
  ⟨rfl, c9_extract_length_only [0] [255] rfl⟩

/-- Claim C7: the full prompt built inside `validateCVWithAI` contains
the declared full name, email, phone and experience values as literal
substrings, the skills joined into one comma-separated line, and the
entire extracted text unmodified and untruncated. -/
theorem c7_prompt_contains_all_fields (fd : FormInput) (pdf : Str) :
    (∃ a b, buildFullPrompt fd pdf = a ++ fd.fullName ++ b) ∧
    (∃ a b, buildFullPrompt fd pdf = a ++ fd.email ++ b) ∧
    (∃ a b, buildFullPrompt fd pdf = a ++ fd.phone ++ b) ∧
    (∃ a b, buildFullPrompt fd pdf = a ++ joinComma fd.skills ++ b) ∧
    (∃ a b, buildFullPrompt fd pdf = a ++ fd.experience ++ b) ∧
    (∃ a b, buildFullPrompt fd pdf = a ++ pdf ++ b) := by
  refine
    ⟨⟨sysPre ++ promptP1,
      promptP2 ++ fd.email ++ promptP3 ++ fd.phone ++ promptP4 ++ joinComma fd.skills ++
        promptP5 ++ fd.experience ++ promptP6 ++ pdf ++ promptP7 ++ sysSuf, ?_⟩,
    ⟨sysPre ++ promptP1 ++ fd.fullName ++ promptP2,
      promptP3 ++ fd.phone ++ promptP4 ++ joinComma fd.skills ++ promptP5 ++
        fd.experience ++ promptP6 ++ pdf ++ promptP7 ++ sysSuf, ?_⟩,
    ⟨sysPre ++ promptP1 ++ fd.fullName ++ promptP2 ++ fd.email ++ promptP3,
      promptP4 ++ joinComma fd.skills ++ promptP5 ++ fd.experience ++ promptP6 ++
        pdf ++ promptP7 ++ sysSuf, ?_⟩,
    ⟨sysPre ++ promptP1 ++ fd.fullName ++ promptP2 ++ fd.email ++ promptP3 ++
        fd.phone ++ promptP4,
      promptP5 ++ fd.experience ++ promptP6 ++ pdf ++ promptP7 ++ sysSuf, ?_⟩,
    ⟨sysPre ++ promptP1 ++ fd.fullName ++ promptP2 ++ fd.email ++ promptP3 ++
        fd.phone ++ promptP4 ++ joinComma fd.skills ++ promptP5,
      promptP6 ++ pdf ++ promptP7 ++ sysSuf, ?_⟩,
    ⟨sysPre ++ promptP1 ++ fd.fullName ++ promptP2 ++ fd.email ++ promptP3 ++
        fd.phone ++ promptP4 ++ joinComma fd.skills ++ promptP5 ++ fd.experience ++
        promptP6,
      promptP7 ++ sysSuf, ?_⟩⟩ <;>
    simp [buildFullPrompt, buildPrompt, List.append_assoc]

/-- Claim C4: `validateCVWithAI` is total at its boundary: for every
input, adapter behaviour and parser behaviour it returns a value and
never propagates an exception (never returns `.error`). -/
theorem c4_validate_never_throws (cm : Str → ModelOutcome) (parse : Str → Option Json)
    (fd : FormInput) (pdf : Str) :
    ∃ v, validateCVWithAI cm parse fd pdf = Except.ok v := by
  unfold validateCVWithAI
  cases tryValidate cm parse fd pdf with
  | ok j => exact ⟨j, rfl⟩
  | error e => exact ⟨handleError e, rfl⟩

/-- Claim C5: when the file at the submitted `pdfPath` does not exist,
`submitCV` surfaces an error to the caller and performs no store write
(no INSERT and no UPDATE appear in the effect trace). -/
theorem c5_missing_file_aborts (input : FormInput) (env : Env)
    (h : env.fileExists = false) :
    (∃ msg, (submitCV input env).1 = Except.error msg) ∧
      ((submitCV input env).2.filter isDbWrite) = [] := by
  cases hs : schemaCheck input with
  | false =>
    have h1 : (submitCV input env).1 = Except.error "Invalid input".data := by
      simp [submitCV, hs]
    have h2 : (submitCV input env).2 = [] := by
      simp [submitCV, hs]
    exact ⟨⟨_, h1⟩, by rw [h2]; rfl⟩
  | true =>
    have h1 : (submitCV input env).1 =
        Except.error ("Failed to process CV submission: PDF file not found at path: ".data ++ input.pdfPath) := by
      simp [submitCV, hs, h]
    have h2 : (submitCV input env).2 = [Effect.fsAccess input.pdfPath] := by
      simp [submitCV, hs, h]
    exact ⟨⟨_, h1⟩, by rw [h2]; rfl⟩

/-- Witness for C5: a schema-valid submission against an environment
whose file is absent. -/
theorem c5_missing_file_aborts_witness :
    envNoFile.fileExists = false ∧
      ((∃ msg, (submitCV fdSample envNoFile).1 = Except.error msg) ∧
        ((submitCV fdSample envNoFile).2.filter isDbWrite) = []) :=
  ⟨rfl, c5_missing_file_aborts fdSample envNoFile rfl⟩

/-- Claim C10: an input violating the schema (empty full name, invalid
email, empty phone, empty skills, or empty experience) is rejected with
an input-validation error before any file access or store write: the
pipeline body never runs and the effect trace is empty. -/
theorem c10_schema_rejects_before_effects (input : FormInput) (env : Env)
    (h : input.fullName = [] ∨ emailValid input.email = false ∨ input.phone = [] ∨
      input.skills = [] ∨ input.experience = []) :
    schemaCheck input = false ∧
      (∃ msg, (submitCV input env).1 = Except.error msg) ∧
      (submitCV input env).2 = [] := by
  have hsc : schemaCheck input = false := by
    rcases h with h | h | h | h | h <;> simp [schemaCheck, h]
  refine ⟨hsc, ⟨"Invalid input".data, ?_⟩, ?_⟩ <;> simp [submitCV, hsc]

/-- Witness for C10 at a submission with an empty full name. -/
theorem c10_schema_rejects_before_effects_witness :
    fdBad.fullName = [] ∧
      (schemaCheck fdBad = false ∧
        (∃ msg, (submitCV fdBad envNoFile).1 = Except.error msg) ∧
        (submitCV fdBad envNoFile).2 = []) :=
  ⟨rfl, c10_schema_rejects_before_effects fdBad envNoFile (Or.inl rfl)⟩

/-- Claim C1: on every adapter failure (a thrown error that is not a
`JSON.parse` failure), `validateCVWithAI` returns a result with
`isValid: true` and a non-null `error` string equal to the code of the
failure's kind, and the four failure kinds carry pairwise-distinct
`error` strings. -/
theorem c1_adapter_failure_codes (cm : Str → ModelOutcome) (parse : Str → Option Json)
    (fd : FormInput) (pdf : Str) (e : JsError)
    (hcm : cm (buildFullPrompt fd pdf) = ModelOutcome.fail e)
    (he : isParseErr e = false) :
    jget (runValidate cm parse fd pdf) "isValid".data = some (Json.bool true) ∧
    jget (runValidate cm parse fd pdf) "error".data =
      some (Json.str (errCode (classifyFailure e) e.status)) ∧
    (∀ e1 e2 : JsError, isParseErr e1 = false → isParseErr e2 = false →
      classifyFailure e1 ≠ classifyFailure e2 →
      jget (handleError e1) "error".data ≠ jget (handleError e2) "error".data) := by
  have hr := runValidate_fail cm parse fd pdf e hcm
  refine ⟨by rw [hr]; exact handleError_isValid e,
    by rw [hr]; exact handleError_error_eq e he, ?_⟩
  intro e1 e2 h1 h2 hk
  rw [handleError_error_eq e1 h1, handleError_error_eq e2 h2]
  intro hEq
  have hcodes : errCode (classifyFailure e1) e1.status =
      errCode (classifyFailure e2) e2.status := by
    injection hEq with h3
    injection h3
  exact errCode_ne _ _ _ _ hk hcodes

/-- Witness for C1 at a transport-style failure (no status, generic
message). -/
theorem c1_adapter_failure_codes_witness :
    stubModel (buildFullPrompt fdSample "cv text".data) =
        ModelOutcome.fail ⟨false, "socket hang up".data, none⟩ ∧
      isParseErr ⟨false, "socket hang up".data, none⟩ = false ∧
      (jget (runValidate stubModel noParse fdSample "cv text".data) "isValid".data =
          some (Json.bool true) ∧
        jget (runValidate stubModel noParse fdSample "cv text".data) "error".data =
          some (Json.str (errCode
            (classifyFailure ⟨false, "socket hang up".data, none⟩)
            (⟨false, "socket hang up".data, none⟩ : JsError).status)) ∧
        (∀ e1 e2 : JsError, isParseErr e1 = false → isParseErr e2 = false →
          classifyFailure e1 ≠ classifyFailure e2 →
          jget (handleError e1) "error".data ≠ jget (handleError e2) "error".data)) :=
  ⟨rfl, by decide,
    c1_adapter_failure_codes stubModel noParse fdSample "cv text".data
      ⟨false, "socket hang up".data, none⟩ rfl (by decide)⟩

/-- Claim C2: when the cleaned model reply fails to parse as JSON,
`validateCVWithAI` returns (does not throw) the parse-failure fallback:
`isValid: true`, all five `matches` fields null, all five `details`
fields carrying the uniform unavailable explanation, an
`overallSummary` explaining the parse failure and a fixed non-null
`error` code. -/
theorem c2_parse_failure_fallback (cm : Str → ModelOutcome) (parse : Str → Option Json)
    (fd : FormInput) (pdf : Str) (raw : Str)
    (hcm : cm (buildFullPrompt fd pdf) = ModelOutcome.ok raw)
    (hp : parse (cleanAIResponse raw) = none) :
    validateCVWithAI cm parse fd pdf = Except.ok (runValidate cm parse fd pdf) ∧
    jget (runValidate cm parse fd pdf) "isValid".data = some (Json.bool true) ∧
    jget (runValidate cm parse fd pdf) "matches".data = some nullMatches ∧
    jkeys ((jget (runValidate cm parse fd pdf) "matches".data).getD Json.null) =
      some fieldNames ∧
    jget (runValidate cm parse fd pdf) "details".data =
      some (uniformDetails "AI validation unavailable - response parsing error".data) ∧
    jkeys ((jget (runValidate cm parse fd pdf) "details".data).getD Json.null) =
      some fieldNames ∧
    jget (runValidate cm parse fd pdf) "overallSummary".data =
      some (Json.str "CV submission accepted. AI validation temporarily unavailable due to response parsing issues. The AI returned an invalid format.".data) ∧
    jget (runValidate cm parse fd pdf) "error".data =
      some (Json.str "AI response parsing error - validation skipped".data) := by
  have hv : validateCVWithAI cm parse fd pdf = Except.ok (handleError synErrJSON) := by
    unfold validateCVWithAI tryValidate
    rw [hcm]
    simp [hp]
  have hr := runValidate_parse_none cm parse fd pdf raw hcm hp
  rw [hr, hv]
  exact ⟨rfl, rfl, rfl, rfl, rfl, rfl, rfl, rfl⟩

/-- Witness for C2 at a reply that is not JSON. -/
theorem c2_parse_failure_fallback_witness :
    okOops (buildFullPrompt fdSample [] ) = ModelOutcome.ok "oops".data ∧
      noParse (cleanAIResponse "oops".data) = none ∧
      (validateCVWithAI okOops noParse fdSample [] =
          Except.ok (runValidate okOops noParse fdSample []) ∧
        jget (runValidate okOops noParse fdSample []) "isValid".data =
          some (Json.bool true) ∧
        jget (runValidate okOops noParse fdSample []) "matches".data = some nullMatches ∧
        jkeys ((jget (runValidate okOops noParse fdSample []) "matches".data).getD Json.null) =
          some fieldNames ∧
        jget (runValidate okOops noParse fdSample []) "details".data =
          some (uniformDetails "AI validation unavailable - response parsing error".data) ∧
        jkeys ((jget (runValidate okOops noParse fdSample []) "details".data).getD Json.null) =
          some fieldNames ∧
        jget (runValidate okOops noParse fdSample []) "overallSummary".data =
          some (Json.str "CV submission accepted. AI validation temporarily unavailable due to response parsing issues. The AI returned an invalid format.".data) ∧
        jget (runValidate okOops noParse fdSample []) "error".data =
          some (Json.str "AI response parsing error - validation skipped".data)) :=
  ⟨rfl, rfl, c2_parse_failure_fallback okOops noParse fdSample [] "oops".data rfl rfl⟩

/-- Counterexample to C6 as stated: on an HTTP 429 failure the stored
`error` code is the string `Google AI quota exceeded - validation
skipped`, not the literal code `rate_limited` the claim names. -/
theorem c6_counterexample :
    jget (runValidate env429.callModel env429.parse fdSample
        (extractPDFText env429.fileBytes)) "error".data =
      some (Json.str "Google AI quota exceeded - validation skipped".data) ∧
    "Google AI quota exceeded - validation skipped".data ≠ "rate_limited".data :=
  ⟨rfl, by decide⟩

/-- Claim C6 (amended): when the provider call fails with HTTP 429, the
normalizer returns `isValid: true`, the fixed quota `error` code
`Google AI quota exceeded - validation skipped`, all five `matches`
fields null, and an `overallSummary` containing the word "quota"; and
`submitCV` still performs the INSERT and then the UPDATE that stores
`validated = true`. -/
theorem c6_quota_scenario (input : FormInput) (env : Env)
    (hs : schemaCheck input = true) (hf : env.fileExists = true)
    (hcm : env.callModel (buildFullPrompt input (extractPDFText env.fileBytes)) =
      ModelOutcome.fail err429) :
    jget (runValidate env.callModel env.parse input (extractPDFText env.fileBytes))
        "isValid".data = some (Json.bool true) ∧
    jget (runValidate env.callModel env.parse input (extractPDFText env.fileBytes))
        "error".data =
      some (Json.str "Google AI quota exceeded - validation skipped".data) ∧
    jget (runValidate env.callModel env.parse input (extractPDFText env.fileBytes))
        "matches".data = some nullMatches ∧
    (∃ s, jget (runValidate env.callModel env.parse input (extractPDFText env.fileBytes))
        "overallSummary".data = some (Json.str s) ∧ containsSub s "quota".data = true) ∧
    (submitCV input env).2 =
      [Effect.fsAccess input.pdfPath, Effect.fsRead input.pdfPath,
        Effect.dbInsert input (extractPDFText env.fileBytes),
        Effect.dbUpdate env.insertId (Json.bool true)
          (runValidate env.callModel env.parse input (extractPDFText env.fileBytes))] ∧
    (∃ r, (submitCV input env).1 = Except.ok r ∧ r.success = true) := by
  have hr := runValidate_fail env.callModel env.parse input
    (extractPDFText env.fileBytes) err429 hcm
  have hval : (jget (runValidate env.callModel env.parse input
      (extractPDFText env.fileBytes)) "isValid".data).getD Json.null = Json.bool true := by
    rw [hr]
    rfl
  refine ⟨by rw [hr]; rfl, by rw [hr]; rfl, by rw [hr]; rfl,
    ⟨"CV submission accepted. AI validation temporarily unavailable due to Google AI quota limits. Please check your Google AI API key and quota settings.".data,
      by rw [hr]; rfl, by decide⟩, ?_, ?_⟩
  · simp [submitCV, hs, hf, hval]
  · exact ⟨⟨true, env.insertId,
      runValidate env.callModel env.parse input (extractPDFText env.fileBytes)⟩,
      by simp [submitCV, hs, hf], rfl⟩

/-- Witness for the amended C6 at the spec's sample submission against
a 429-failing environment. -/
theorem c6_quota_scenario_witness :
    schemaCheck fdSample = true ∧ env429.fileExists = true ∧
      (jget (runValidate env429.callModel env429.parse fdSample
          (extractPDFText env429.fileBytes)) "isValid".data = some (Json.bool true) ∧
        jget (runValidate env429.callModel env429.parse fdSample
          (extractPDFText env429.fileBytes)) "error".data =
          some (Json.str "Google AI quota exceeded - validation skipped".data) ∧
        jget (runValidate env429.callModel env429.parse fdSample
          (extractPDFText env429.fileBytes)) "matches".data = some nullMatches ∧
        (∃ s, jget (runValidate env429.callModel env429.parse fdSample
            (extractPDFText env429.fileBytes)) "overallSummary".data =
            some (Json.str s) ∧ containsSub s "quota".data = true) ∧
        (submitCV fdSample env429).2 =
          [Effect.fsAccess fdSample.pdfPath, Effect.fsRead fdSample.pdfPath,
            Effect.dbInsert fdSample (extractPDFText env429.fileBytes),
            Effect.dbUpdate env429.insertId (Json.bool true)
              (runValidate env429.callModel env429.parse fdSample
                (extractPDFText env429.fileBytes))] ∧
        (∃ r, (submitCV fdSample env429).1 = Except.ok r ∧ r.success = true)) :=
  ⟨by decide, rfl, c6_quota_scenario fdSample env429 (by decide) rfl rfl⟩

/-- Counterexample to C3 as stated: a successful parse is returned
verbatim, so a reply `{"matches": {}}` yields a result whose `matches`
is present with an empty key set, and whose `error` and `isValid` are
both absent. -/
theorem c3_counterexample :
    (jget (runValidate (fun _ => ModelOutcome.ok rawMatches) parseMatches fdSample
        "cv".data) "matches".data).isSome = true ∧
    jkeys ((jget (runValidate (fun _ => ModelOutcome.ok rawMatches) parseMatches fdSample
        "cv".data) "matches".data).getD Json.null) ≠ some fieldNames ∧
    jget (runValidate (fun _ => ModelOutcome.ok rawMatches) parseMatches fdSample
        "cv".data) "error".data = none ∧
    jget (runValidate (fun _ => ModelOutcome.ok rawMatches) parseMatches fdSample
        "cv".data) "isValid".data = none :=
  ⟨rfl, by decide, rfl, rfl⟩

/-- Claim C3 (amended): every degraded result has both `isValid` and
`error` present, and in the parse-failure, rate-limited and
model-unavailable fallbacks `matches` and `details` carry exactly the
five declared field keys; successfully parsed replies are returned
verbatim and carry no key-set guarantee. -/
theorem c3_fallback_key_sets (e : JsError) :
    (∀ cm parse fd pdf, cm (buildFullPrompt fd pdf) = ModelOutcome.fail e →
      runValidate cm parse fd pdf = handleError e) ∧
    (jget (handleError e) "isValid".data).isSome = true ∧
    (jget (handleError e) "error".data).isSome = true ∧
    ((isParseErr e = true ∨ classifyFailure e = FailureKind.rateLimited ∨
        classifyFailure e = FailureKind.modelUnavailable) →
      jkeys ((jget (handleError e) "matches".data).getD Json.null) = some fieldNames ∧
      jkeys ((jget (handleError e) "details".data).getD Json.null) = some fieldNames) :=
  ⟨fun cm parse fd pdf hcm => runValidate_fail cm parse fd pdf e hcm,
    by rw [handleError_isValid]; rfl,
    handleError_error_isSome e,
    handleError_five_keys e⟩

/-- Witness for the amended C3 at the 429 quota failure. -/
theorem c3_fallback_key_sets_witness :
    (isParseErr err429 = true ∨ classifyFailure err429 = FailureKind.rateLimited ∨
      classifyFailure err429 = FailureKind.modelUnavailable) ∧
      (jkeys ((jget (handleError err429) "matches".data).getD Json.null) = some fieldNames ∧
        jkeys ((jget (handleError err429) "details".data).getD Json.null) = some fieldNames) :=
  ⟨Or.inr (Or.inl (by decide)),
    (c3_fallback_key_sets err429).2.2.2 (Or.inr (Or.inl (by decide)))⟩

/-- Counterexample to C8 as stated: a fence whose language tag is not
the exact lowercase `json` (here `JSON`) keeps its tag text after
stripping, so the cleaned reply differs from the unfenced reply. -/
theorem c8_counterexample :
    cleanAIResponse "```JSON\n\x7b\x7d\n```".data = "JSON\n\x7b\x7d".data ∧
    cleanAIResponse "```JSON\n\x7b\x7d\n```".data ≠ cleanAIResponse "\x7b\x7d".data :=
  ⟨by decide, by decide⟩

/-- Claim C8 (amended): for every reply `R` whose trimmed form does not
itself begin with a fence (true of any JSON text), wrapping `R` in a
```` ```json ````-tagged fence, or in an untagged fence, and cleaning
yields exactly the cleaned unfenced reply, so any parser applied after
cleaning gives identical results; fences with other language tags are
not handled. -/
theorem c8_fence_round_trip (R : Str)
    (h : hasPref "```".data (trimS R) = false) :
    cleanAIResponse ("```json\n".data ++ (R ++ "\n```".data)) = cleanAIResponse R ∧
    cleanAIResponse ("```\n".data ++ (R ++ "\n```".data)) = cleanAIResponse R ∧
    cleanAIResponse R = trimS R ∧
    (∀ parse : Str → Option Json,
      parse (cleanAIResponse ("```json\n".data ++ (R ++ "\n```".data))) =
        parse (cleanAIResponse R)) := by
  have hnf := clean_no_fence R h
  have hj := clean_wrapped_json R
  have hb := clean_wrapped_bare R
  exact ⟨by rw [hj, hnf], by rw [hb, hnf], hnf, fun parse => by rw [hj, hnf]⟩

/-- Witness for the amended C8 at the JSON object reply. -/
theorem c8_fence_round_trip_witness :
    hasPref "```".data (trimS "\x7b\"isValid\": true\x7d".data) = false ∧
      (cleanAIResponse ("```json\n".data ++ ("\x7b\"isValid\": true\x7d".data ++ "\n```".data)) =
          cleanAIResponse "\x7b\"isValid\": true\x7d".data ∧
        cleanAIResponse ("```\n".data ++ ("\x7b\"isValid\": true\x7d".data ++ "\n```".data)) =
          cleanAIResponse "\x7b\"isValid\": true\x7d".data ∧
        cleanAIResponse "\x7b\"isValid\": true\x7d".data = trimS "\x7b\"isValid\": true\x7d".data ∧
        (∀ parse : Str → Option Json,
          parse (cleanAIResponse ("```json\n".data ++
              ("\x7b\"isValid\": true\x7d".data ++ "\n```".data))) =
            parse (cleanAIResponse "\x7b\"isValid\": true\x7d".data))) :=
  ⟨by decide, c8_fence_round_trip "\x7b\"isValid\": true\x7d".data (by decide)⟩

end CVV
